import Mathlib

/-!
Verification of the AdTechHackaton2023 service (final variant:
`storage.go`, `application.go`, `main.go`) against its specification.

The relational store is shallowly embedded: each SQL table is a list of
records, each SQL read query is a Lean function from a `Store` to a list of
result rows (joins are nested binds with the left-outer "keep the row with
a NULL partner" patch, `WHERE` is a filter, `ORDER BY ... DESC` is a sort
with a descending comparator).  The Go repository wrappers and HTTP
handlers are embedded over an explicit "driver outcome" parameter
(`Except String` results), so that both the success path and a failing
query can be examined.  Machine floats of the coordinate parameters are
modelled as rationals; the geo sort key uses the squared Euclidean
distance, which orders points exactly as the distance itself does.
-/

/-- A row of the SQL table `partner`.  `location` is a point; `partnersSQL`
reads `location[0] as latitude` and `location[1] as longitude`, so the
first component of the stored point is the latitude. -/
structure PartnerRec where
  id : Int
  headline : String
  description : String
  loc0 : Rat
  loc1 : Rat
  priceLevel : Int
  deriving DecidableEq, Repr

/-- A row of the SQL table `category` (`parent_id` is nullable). -/
structure CategoryRec where
  id : Int
  parentId : Option Int
  name : String
  deriving DecidableEq, Repr

/-- A row of the SQL table `promotion`. -/
structure PromotionRec where
  id : Int
  partnerId : Int
  categoryId : Int
  title : String
  description : String
  deriving DecidableEq, Repr

/-- A row of the SQL table `headline_banner` (`url` is the primary key;
the three association columns are independently nullable). -/
structure BannerRec where
  url : String
  partnerId : Option Int
  promotionId : Option Int
  categoryId : Option Int
  image : List Nat
  deriving DecidableEq, Repr

/-- The relational store: one list per table read by the service. -/
structure Store where
  partners : List PartnerRec
  categories : List CategoryRec
  promotions : List PromotionRec
  banners : List BannerRec
  deriving DecidableEq, Repr

/-- The Go struct `Category` scanned from `categoriesSQL`; a NULL
`headline_banner.url` scans to the zero value `""`. -/
structure Category where
  Id : Int
  Name : String
  URL : String
  deriving DecidableEq, Repr

/-- The Go struct `Promotion` scanned from the promotion queries; a NULL
`headline_banner.url` scans to the zero value `""`. -/
structure Promotion where
  Id : Int
  Title : String
  Description : String
  Url : String
  deriving DecidableEq, Repr

/-- The Go struct `Partner` scanned from `partnersSQL`. -/
structure Partner where
  Id : Int
  Headline : String
  Description : String
  Latitude : Rat
  Longitude : Rat
  PriceLevel : Int
  BannerURL : String
  deriving DecidableEq, Repr

/-- Left-outer extension of one `category` row by the banners matching
`on category.id = headline_banner.category_id`: with no match the row
survives with a NULL banner. -/
def categoryBannerMatches (banners : List BannerRec) (c : CategoryRec) :
    List (CategoryRec × Option BannerRec) :=
  let bs := banners.filter (fun b => b.categoryId = some c.id)
  if bs.isEmpty then [(c, none)] else bs.map (fun b => (c, some b))

/-- Query `categoriesSQL`: `select category.id, category.name, headline_banner.url
from category left join headline_banner on category.id =
headline_banner.category_id where category.parent_id = ?::int`.  A NULL
url scans into the Go zero value `""`. -/
def categoriesQuery (st : Store) (parentId : Int) : List Category :=
  ((st.categories.flatMap (categoryBannerMatches st.banners)).filter
      (fun cb => cb.1.parentId = some parentId)).map
    (fun cb =>
      { Id := cb.1.id, Name := cb.1.name,
        URL := match cb.2 with | some b => b.url | none => "" })

/-- Query `partnersSQL`: every partner left-joined with the banners matching on
`partner_id`; `location[0]` is read as latitude, `location[1]` as
longitude. -/
def partnersQuery (st : Store) : List Partner :=
  st.partners.flatMap (fun p =>
    let bs := st.banners.filter (fun b => b.partnerId = some p.id)
    let mk : Option BannerRec → Partner := fun ob =>
      { Id := p.id, Headline := p.headline, Description := p.description,
        Latitude := p.loc0, Longitude := p.loc1, PriceLevel := p.priceLevel,
        BannerURL := match ob with | some b => b.url | none => "" }
    if bs.isEmpty then [mk none] else bs.map (fun b => mk (some b)))

/-- Query `bannerImagesSQL`: `select image from headline_banner where url = $1`. -/
def bannerImagesQuery (st : Store) (url : String) : List (List Nat) :=
  (st.banners.filter (fun b => b.url = url)).map (fun b => b.image)

/-- Left-outer extension of one `promotion` row by the banners matching
`on promotion.id = headline_banner.promotion_id`. -/
def promotionBannerMatches (banners : List BannerRec) (promotionId : Int) :
    List (Option BannerRec) :=
  let bs := banners.filter (fun b => b.promotionId = some promotionId)
  if bs.isEmpty then [none] else bs.map some

/-- Projection `select promotion.id, promotion.title,
promotion.description, headline_banner.url` shared by both promotion
queries; a NULL url scans to `""`. -/
def mkPromotion (pr : PromotionRec) (ob : Option BannerRec) : Promotion :=
  { Id := pr.id, Title := pr.title, Description := pr.description,
    Url := match ob with | some b => b.url | none => "" }

/-- Clause `from promotion left join headline_banner on promotion.id =
headline_banner.promotion_id`. -/
def promotionBannerJoin (st : Store) : List (PromotionRec × Option BannerRec) :=
  st.promotions.flatMap (fun pr =>
    (promotionBannerMatches st.banners pr.id).map (fun ob => (pr, ob)))

/-- Query `promotionByPartnerSQL`: the banner join filtered by
`where ?::int = 0 OR promotion.partner_id = ?::int`, both placeholders
bound to the same `partner` argument. -/
def promotionByPartnerQuery (st : Store) (partner : Int) : List Promotion :=
  ((promotionBannerJoin st).filter
      (fun x => decide (partner = 0) || decide (x.1.partnerId = partner))).map
    (fun x => mkPromotion x.1 x.2)

/-- Left-outer extension of one `promotion` row by the partners matching
`on promotion.partner_id = partner.id`. -/
def partnerMatches (partners : List PartnerRec) (pr : PromotionRec) :
    List (Option PartnerRec) :=
  let ps := partners.filter (fun q => q.id = pr.partnerId)
  if ps.isEmpty then [none] else ps.map some

/-- Clause `from promotion left join partner on promotion.partner_id = partner.id
left join headline_banner on promotion.id = headline_banner.promotion_id`. -/
def promotionGeoJoin (st : Store) :
    List (PromotionRec × Option PartnerRec × Option BannerRec) :=
  st.promotions.flatMap (fun pr =>
    (partnerMatches st.partners pr).flatMap (fun op =>
      (promotionBannerMatches st.banners pr.id).map (fun ob => (pr, op, ob))))

/-- The sort key `partner.location <-> ST_SetSRID(ST_MakePoint(?,?),4326)`
of `promotionByGeoSQL`, modelled by the squared Euclidean distance (the
squaring map is strictly monotone on distances, so it induces the same
order); the first placeholder is the x coordinate of the point, the
second the y coordinate.  A row whose partner did not match has a NULL
location, hence a NULL key, modelled as `⊤` — under `ORDER BY ... DESC`
PostgreSQL puts NULLs first, and `⊤` is the maximum. -/
def geoKey (op : Option PartnerRec) (x y : Rat) : WithTop Rat :=
  match op with
  | none => ⊤
  | some q => ((q.loc0 - x) * (q.loc0 - x) + (q.loc1 - y) * (q.loc1 - y) : Rat)

/-- The descending comparator of `order by ... desc`. -/
def geoDesc (a b : Promotion × WithTop Rat) : Prop := b.2 ≤ a.2

instance : DecidableRel geoDesc := fun a b => inferInstanceAs (Decidable (b.2 ≤ a.2))

instance : IsTotal (Promotion × WithTop Rat) geoDesc :=
  ⟨fun a b => (le_total b.2 a.2).imp id id⟩

instance : IsTrans (Promotion × WithTop Rat) geoDesc :=
  ⟨fun _ _ _ h1 h2 => le_trans h2 h1⟩

/-- The rows of `promotionByGeoSQL` paired with their sort keys, before
sorting.  `x` is the value bound to the first placeholder of
`ST_MakePoint`, `y` the second. -/
def geoKeyedRows (st : Store) (x y : Rat) : List (Promotion × WithTop Rat) :=
  (promotionGeoJoin st).map (fun z => (mkPromotion z.1 z.2.2, geoKey z.2.1 x y))

/-- The keyed rows sorted by `order by ... desc` (descending key). -/
def geoSortedRows (st : Store) (x y : Rat) : List (Promotion × WithTop Rat) :=
  List.insertionSort geoDesc (geoKeyedRows st x y)

/-- Query `promotionByGeoSQL`: the three-table join, ordered by descending
distance between the partner location and the supplied point. -/
def promotionByGeoQuery (st : Store) (x y : Rat) : List Promotion :=
  (geoSortedRows st x y).map Prod.fst

/-- Model of `strconv.Atoi` (base 10, 64-bit int), over the characters of the
argument: an optional sign followed by at least one digit parses; any
other shape returns value `0` with an error; a syntactically valid
numeral out of the 64-bit range returns the clamped `MaxInt64`
(resp. `MinInt64`) with `ErrRange`.  The `Bool` is `err == nil`. -/
def digitsVal : List Char → Nat → Nat
  | [], acc => acc
  | c :: cs, acc => digitsVal cs (acc * 10 + (c.toNat - '0'.toNat))

def allDigits (cs : List Char) : Bool :=
  cs.all (fun c => '0' ≤ c && c ≤ '9')

/-- The characters after the optional leading sign. -/
def signDigits (cs : List Char) : List Char :=
  match cs with
  | [] => []
  | c :: rest => if c = '-' || c = '+' then rest else c :: rest

/-- Whether the numeral carries a leading minus sign. -/
def isNegSign (cs : List Char) : Bool :=
  match cs with
  | [] => false
  | c :: _ => c = '-'

def goAtoiCore (cs : List Char) : Int × Bool :=
  match cs with
  | [] => (0, false)
  | _ :: _ =>
    let ds : List Char := signDigits cs
    if ds.isEmpty || !allDigits ds then (0, false)
    else
      let n : Nat := digitsVal ds 0
      if isNegSign cs then
        if n > 2 ^ 63 then (-(2 ^ 63 : Int), false) else (-(n : Int), true)
      else
        if n > 2 ^ 63 - 1 then ((2 ^ 63 - 1 : Int), false) else ((n : Int), true)

def goAtoi (s : String) : Int × Bool := goAtoiCore s.data

/-- Syntactic well-formedness of a base-10 `Atoi` argument: an optional
sign followed by a non-empty run of ASCII digits.  `goAtoi` yields `0`
exactly on the strings rejected by this check; on accepted strings it
yields the (possibly range-clamped) numeric value. -/
def isValidIntSyntax (cs : List Char) : Bool :=
  match cs with
  | [] => false
  | _ :: _ => !(signDigits cs).isEmpty && allDigits (signDigits cs)

/-- Outcome of handing a SQL read to the driver: either the rows the
query semantics produce, or an underlying failure (connection loss,
malformed parameter, ...) carried as text. -/
def driverOutcome {α : Type} (dbFail : Option String) (rows : α) :
    Except String α :=
  match dbFail with
  | some e => Except.error e
  | none => Except.ok rows

/-- Wrapper `Storage.GetCategories`: checks `.Error` of the scan and wraps a
failure as `fmt.Errorf("GetCategories: %w", err)`. -/
def GetCategories (dbResp : Except String (List Category)) :
    Except String (List Category) :=
  match dbResp with
  | Except.error e => Except.error ("GetCategories: " ++ e)
  | Except.ok rows => Except.ok rows

/-- Wrapper `Storage.GetPartners`: checks `.Error` of the scan and wraps a
failure as `fmt.Errorf("GetPartners: %w", err)`. -/
def GetPartners (dbResp : Except String (List Partner)) :
    Except String (List Partner) :=
  match dbResp with
  | Except.error e => Except.error ("GetPartners: " ++ e)
  | Except.ok rows => Except.ok rows

/-- In `database/sql`, `QueryRow(...).Scan(&image)` yields the first result
row, or the error `sql: no rows in result set` when the query returned
none. -/
def queryRowScan (dbResp : Except String (List (List Nat))) :
    Except String (List Nat) :=
  match dbResp with
  | Except.error e => Except.error e
  | Except.ok [] => Except.error "sql: no rows in result set"
  | Except.ok (img :: _) => Except.ok img

/-- Wrapper `Storage.GetBannerImageByURL`: a failure of `s.db.DB()` (modelled by
`connFail`) is returned unwrapped; a failure of the row scan is wrapped
as `fmt.Errorf("GetBannerURLs: %w", err)` — the message in the source
names `GetBannerURLs`, not `GetBannerImageByURL`. -/
def GetBannerImageByURL (connFail : Option String)
    (dbResp : Except String (List (List Nat))) : Except String (List Nat) :=
  match connFail with
  | some e => Except.error e
  | none =>
    match queryRowScan dbResp with
    | Except.error e => Except.error ("GetBannerURLs: " ++ e)
    | Except.ok img => Except.ok img

/-- The `*gorm.DB` value returned by `Raw(...).Scan(&promotions)`: the
method returns its receiver, so the pointer is never nil; the `Option`
models pointer nil-ness and is therefore always `some`.  The payload
records the driver outcome held in the `.Error` field of the handle (which
the buggy callers never consult). -/
def gormScanHandle (dbResp : Except String (List Promotion)) :
    Option (Except String (List Promotion)) :=
  some dbResp

/-- The rows left in `&promotions` after `Scan`: the scanned rows on
success, the untouched nil slice on failure. -/
def scannedRows (dbResp : Except String (List Promotion)) : List Promotion :=
  match dbResp with
  | Except.ok rows => rows
  | Except.error _ => []

/-- Wrapper `Storage.GetPromotionsByPartner`: the source binds
`err := s.db.Raw(...).Scan(&promotions)` — the `*gorm.DB` itself, not its
`.Error` field — and tests it against nil, so the error branch is taken
on every call; `fmt.Errorf("GetPromotionsByPartner: %w", err)` applied to
a non-error value renders a `%!w` verb failure. -/
def GetPromotionsByPartner (dbResp : Except String (List Promotion))
    ( _partner : Int) : Except String (List Promotion) :=
  match gormScanHandle dbResp with
  | some _ => Except.error "GetPromotionsByPartner: %!w(*gorm.DB)"
  | none => Except.ok (scannedRows dbResp)

/-- Wrapper `Storage.GetPromotionsByGeo`: same nil-test slip as
`GetPromotionsByPartner`. -/
def GetPromotionsByGeo (dbResp : Except String (List Promotion))
    ( _long _lat : Rat) : Except String (List Promotion) :=
  match gormScanHandle dbResp with
  | some _ => Except.error "GetPromotionsByGeo: %!w(*gorm.DB)"
  | none => Except.ok (scannedRows dbResp)

/-- Which storage call the `/promtions` handler makes, with its
positional arguments. -/
inductive PromotionsCall where
  | byGeo (arg1 arg2 : Rat)
  | byPartner (partner : Int)
  deriving DecidableEq, Repr

def PromotionsCall.isByGeo : PromotionsCall → Bool
  | byGeo _ _ => true
  | byPartner _ => false

/-- The dispatch of `Application.GetPromotions`: `latitude` and
`longitude` are the already-parsed `lat` and `long` query parameters
(`ParseFloat` with the error discarded, so `0` when absent or
malformed); `partnerRaw` is the raw `partner` parameter (`""` when
absent).  `if latitude != 0 && longitude != 0` calls
`GetPromotionsByGeo(latitude, longitude)` — the parsed latitude is the
first positional argument — else `GetPromotionsByPartner(partner)`. -/
def getPromotionsDispatch (latitude longitude : Rat) (partnerRaw : String) :
    PromotionsCall :=
  let partner := (goAtoi partnerRaw).1
  if latitude ≠ 0 ∧ longitude ≠ 0 then
    PromotionsCall.byGeo latitude longitude
  else
    PromotionsCall.byPartner partner

/-- The body of an HTTP response as the handlers produce it: an error
text, a JSON-encoded entity list, or raw image bytes. -/
inductive Body where
  | text (s : String)
  | jsonCategories (l : List Category)
  | jsonPromotions (l : List Promotion)
  | imageBytes (b : List Nat)
  deriving DecidableEq, Repr

structure HttpResponse where
  status : Nat
  contentType : Option String
  body : Body
  deriving DecidableEq, Repr

/-- Handler `Application.GetCategories` end to end: `strconv.Atoi` on the raw
`parent` parameter with the error discarded, then the repository call;
an error answers 500 with the error text, success answers 200 with the
JSON rows. -/
def runCategoriesRequest (st : Store) (dbFail : Option String)
    (parentRaw : String) : HttpResponse :=
  let parentId := (goAtoi parentRaw).1
  match GetCategories (driverOutcome dbFail (categoriesQuery st parentId)) with
  | Except.error e => { status := 500, contentType := none, body := Body.text e }
  | Except.ok rows =>
    { status := 200, contentType := none, body := Body.jsonCategories rows }

/-- Handler `Application.GetImage` end to end: on error 500 with the error text
and no content type; on success the `image/jpeg` content type and the
raw bytes. -/
def runImageRequest (st : Store) (connFail dbFail : Option String)
    (url : String) : HttpResponse :=
  match GetBannerImageByURL connFail
      (driverOutcome dbFail (bannerImagesQuery st url)) with
  | Except.error e => { status := 500, contentType := none, body := Body.text e }
  | Except.ok img =>
    { status := 200, contentType := some "image/jpeg",
      body := Body.imageBytes img }

/-- Handler `Application.GetPromotions` end to end: the dispatch of
`getPromotionsDispatch` feeding the corresponding storage call, whose
rows on the geo branch come from `promotionByGeoQuery` evaluated at the
positional arguments as passed. -/
def runPromotionsRequest (st : Store) (dbFail : Option String)
    (latitude longitude : Rat) (partnerRaw : String) : HttpResponse :=
  let result :=
    match getPromotionsDispatch latitude longitude partnerRaw with
    | PromotionsCall.byGeo a1 a2 =>
      GetPromotionsByGeo (driverOutcome dbFail (promotionByGeoQuery st a1 a2)) a1 a2
    | PromotionsCall.byPartner p =>
      GetPromotionsByPartner
        (driverOutcome dbFail (promotionByPartnerQuery st p)) p
  match result with
  | Except.error e => { status := 500, contentType := none, body := Body.text e }
  | Except.ok rows =>
    { status := 200, contentType := none, body := Body.jsonPromotions rows }

/-- The column list of one `create table` statement of `initSQL`;
two tables are schema-identical when their column lists coincide. -/
structure TableDef where
  columns : List String
  deriving DecidableEq, Repr

def userTableDef : TableDef := ⟨["id", "mail", "phone_number"]⟩
def partnerTableDef : TableDef :=
  ⟨["id", "headline", "description", "location", "price_level"]⟩
def categoryTableDef : TableDef := ⟨["id", "parent_id", "name"]⟩
def promotionTableDef : TableDef :=
  ⟨["id", "partner_id", "category_id", "title", "description"]⟩
def actionTableDef : TableDef := ⟨["id", "type", "user_id", "promotion_id"]⟩
def headlineBannerTableDef : TableDef :=
  ⟨["url", "partner_id", "promotion_id", "category_id", "image"]⟩

/-- The store as the Schema Initializer sees it: which tables exist (with
their column lists) and the contents of the `category` table, the only
table `initSQL` writes rows into. -/
structure DBState where
  userTable : Option TableDef
  partnerTable : Option TableDef
  categoryTable : Option TableDef
  promotionTable : Option TableDef
  actionTable : Option TableDef
  headlineBannerTable : Option TableDef
  categoryRows : List CategoryRec
  deriving DecidableEq, Repr

def emptyDB : DBState := ⟨none, none, none, none, none, none, []⟩

/-- Statement `create table if not exists`: a no-op when the table already exists. -/
def createIfAbsent (cur : Option TableDef) (d : TableDef) : Option TableDef :=
  match cur with
  | none => some d
  | some t => some t

/-- Statement `insert into category(...) values (...) ON CONFLICT DO NOTHING`: each
value row is appended unless a row with its primary key is already
present (rows inserted earlier in the same statement included). -/
def insertSkipOnConflict (rows : List CategoryRec) (vals : List CategoryRec) :
    List CategoryRec :=
  vals.foldl
    (fun acc r => if acc.any (fun x => x.id = r.id) then acc else acc ++ [r])
    rows

/-- The twelve seed rows of the `insert into category` statement. -/
def seedCategories : List CategoryRec :=
  [⟨0, none, "Root"⟩,
   ⟨1, some 0, "Eating out"⟩,
   ⟨2, some 0, "Supermarkets"⟩,
   ⟨3, some 0, "Clothes & etc."⟩,
   ⟨4, some 0, "Entertainment"⟩,
   ⟨5, some 0, "Transport"⟩,
   ⟨6, some 0, "Health & Beauty"⟩,
   ⟨7, some 1, "Bars"⟩,
   ⟨8, some 1, "Restaurants"⟩,
   ⟨9, some 1, "Cafe"⟩,
   ⟨10, some 1, "Burgers"⟩,
   ⟨11, some 1, "Gyros"⟩]

/-- Script `initSQL` as run by `NewStorage`, statement by statement in source
order: create `user`, `partner`, `category`; insert the category seeds
skipping conflicting primary keys; create `promotion`, `action`,
`headline_banner`. -/
def runInit (s : DBState) : DBState :=
  { userTable := createIfAbsent s.userTable userTableDef
    partnerTable := createIfAbsent s.partnerTable partnerTableDef
    categoryTable := createIfAbsent s.categoryTable categoryTableDef
    categoryRows := insertSkipOnConflict s.categoryRows seedCategories
    promotionTable := createIfAbsent s.promotionTable promotionTableDef
    actionTable := createIfAbsent s.actionTable actionTableDef
    headlineBannerTable :=
      createIfAbsent s.headlineBannerTable headlineBannerTableDef }

/-! ### Helper lemmas -/

/-- A list whose image under `f` has no duplicates has at most one
element mapping to any given value. -/
theorem length_filter_le_one_of_nodup_map {α β : Type} [DecidableEq β]
    (f : α → β) (v : β) :
    ∀ l : List α, (l.map f).Nodup → (l.filter (fun x => f x = v)).length ≤ 1 := by
  intro l
  induction l with
  | nil => intro _; simp
  | cons a tl ih =>
    intro h
    rw [List.map_cons, List.nodup_cons] at h
    by_cases ha : f a = v
    · have htl : tl.filter (fun x => f x = v) = [] := by
        rw [List.filter_eq_nil_iff]
        intro x hx hfx
        exact h.1 (ha ▸ (of_decide_eq_true hfx) ▸ List.mem_map_of_mem f hx)
      simp [List.filter_cons, ha, htl]
    · simpa [List.filter_cons, ha] using ih h.2

theorem partnerMatches_length_one {st : List PartnerRec} (pr : PromotionRec)
    (h : (st.map (fun q => q.id)).Nodup) : (partnerMatches st pr).length = 1 := by
  by_cases he : (st.filter (fun q => q.id = pr.partnerId)).isEmpty
  · simp [partnerMatches, he]
  · have hle : (st.filter (fun q => q.id = pr.partnerId)).length ≤ 1 := by
      simpa using length_filter_le_one_of_nodup_map (fun q => q.id) pr.partnerId st h
    have hpos : 0 < (st.filter (fun q => q.id = pr.partnerId)).length :=
      List.length_pos.mpr (by simpa using List.isEmpty_iff.not.mp he)
    simp only [partnerMatches, he, Bool.false_eq_true, if_false, List.length_map]
    omega

/-- Dropping the partner column from the three-table geo join gives the
two-table banner join, provided partner ids are unique (the primary-key
constraint): the partner factor of the join is then a singleton. -/
theorem geoJoin_proj_eq_bannerJoin (st : Store)
    (h : (st.partners.map (fun q => q.id)).Nodup) :
    (promotionGeoJoin st).map (fun z => mkPromotion z.1 z.2.2) =
      (promotionBannerJoin st).map (fun x => mkPromotion x.1 x.2) := by
  unfold promotionGeoJoin promotionBannerJoin
  rw [List.map_flatMap, List.map_flatMap]
  apply List.flatMap_congr
  intro pr _
  rw [List.map_flatMap]
  obtain ⟨op, hop⟩ :=
    List.length_eq_one.mp (partnerMatches_length_one pr h)
  rw [hop]
  simp [List.map_map, Function.comp]

theorem createIfAbsent_idem (cur : Option TableDef) (d : TableDef) :
    createIfAbsent (createIfAbsent cur d) d = createIfAbsent cur d := by
  cases cur <;> rfl

/-- One step of the skip-on-conflict fold preserves any id already
present. -/
theorem insertStep_any_mono (acc : List CategoryRec) (r : CategoryRec)
    (i : Int) (h : acc.any (fun x => x.id = i) = true) :
    ((if acc.any (fun x => x.id = r.id) then acc else acc ++ [r]).any
        (fun x => x.id = i)) = true := by
  by_cases hc : acc.any (fun x => x.id = r.id) = true
  · rw [if_pos hc]; exact h
  · rw [if_neg hc, List.any_append, h, Bool.true_or]

theorem insertSkipOnConflict_any_mono (vals : List CategoryRec) :
    ∀ (acc : List CategoryRec) (i : Int),
      acc.any (fun x => x.id = i) = true →
      (insertSkipOnConflict acc vals).any (fun x => x.id = i) = true := by
  induction vals with
  | nil => intro acc i h; exact h
  | cons v vs ih =>
    intro acc i h
    show (insertSkipOnConflict
        (if acc.any (fun x => x.id = v.id) then acc else acc ++ [v]) vs).any
        (fun x => x.id = i) = true
    exact ih _ i (insertStep_any_mono acc v i h)

/-- After inserting `vals` with skip-on-conflict, every id of `vals` is
present. -/
theorem insertSkipOnConflict_any_of_mem (vals : List CategoryRec) :
    ∀ (acc : List CategoryRec) (r : CategoryRec), r ∈ vals →
      (insertSkipOnConflict acc vals).any (fun x => x.id = r.id) = true := by
  induction vals with
  | nil => intro acc r h; cases h
  | cons v vs ih =>
    intro acc r hr
    show (insertSkipOnConflict
        (if acc.any (fun x => x.id = v.id) then acc else acc ++ [v]) vs).any
        (fun x => x.id = r.id) = true
    rcases List.mem_cons.mp hr with hrv | hrvs
    · subst hrv
      apply insertSkipOnConflict_any_mono
      by_cases hc : acc.any (fun x => x.id = r.id) = true
      · rw [if_pos hc]; exact hc
      · rw [if_neg hc, List.any_append]; simp
    · exact ih _ r hrvs

/-- Skip-on-conflict insertion is a no-op when every id of `vals` is
already present. -/
theorem insertSkipOnConflict_eq_self (vals : List CategoryRec) :
    ∀ acc : List CategoryRec,
      (∀ r ∈ vals, acc.any (fun x => x.id = r.id) = true) →
      insertSkipOnConflict acc vals = acc := by
  induction vals with
  | nil => intro acc _; rfl
  | cons v vs ih =>
    intro acc h
    show insertSkipOnConflict
        (if acc.any (fun x => x.id = v.id) then acc else acc ++ [v]) vs = acc
    rw [if_pos (h v (List.mem_cons_self v vs))]
    exact ih acc (fun r hr => h r (List.mem_cons_of_mem v hr))

theorem insertSkipOnConflict_idem (acc vals : List CategoryRec) :
    insertSkipOnConflict (insertSkipOnConflict acc vals) vals =
      insertSkipOnConflict acc vals :=
  insertSkipOnConflict_eq_self vals _
    (fun r hr => insertSkipOnConflict_any_of_mem vals acc r hr)

theorem runInit_idem (s : DBState) : runInit (runInit s) = runInit s := by
  simp [runInit, createIfAbsent_idem, insertSkipOnConflict_idem]

/-- On strings rejected by the syntactic check (missing sign/digit
structure), `strconv.Atoi` yields value `0` and a non-nil error. -/
theorem goAtoiCore_invalid (cs : List Char)
    (h : isValidIntSyntax cs = false) : goAtoiCore cs = (0, false) := by
  cases cs with
  | nil => rfl
  | cons c rest =>
    have h3 : (!(signDigits (c :: rest)).isEmpty
        && allDigits (signDigits (c :: rest))) = false := h
    have h2 : ((signDigits (c :: rest)).isEmpty
        || !allDigits (signDigits (c :: rest))) = true := by
      rcases Bool.and_eq_false_iff.mp h3 with h4 | h4
      · have h5 : (signDigits (c :: rest)).isEmpty = true := by simpa using h4
        rw [h5, Bool.true_or]
      · rw [h4, Bool.not_false, Bool.or_true]
    show (if ((signDigits (c :: rest)).isEmpty
          || !allDigits (signDigits (c :: rest))) = true
        then ((0 : Int), false) else _) = ((0 : Int), false)
    rw [if_pos h2]

theorem goAtoi_invalid (s : String) (h : isValidIntSyntax s.data = false) :
    goAtoi s = (0, false) :=
  goAtoiCore_invalid s.data h

/-- With the sentinel `0` bound to the placeholders, the `WHERE` clause of
`promotionByPartnerSQL` is a tautology: the filter disappears. -/
theorem promotionByPartnerQuery_zero (st : Store) :
    promotionByPartnerQuery st 0 =
      (promotionBannerJoin st).map (fun x => mkPromotion x.1 x.2) := by
  unfold promotionByPartnerQuery
  rw [List.filter_eq_self.mpr]
  intro x _
  simp

/-- Concrete stores used to instantiate the hypotheses of the claim
theorems. -/
def wStore : Store :=
  { partners :=
      [⟨1, "near cafe", "close by", 0, 0, 2⟩,
       ⟨2, "far cafe", "distant", 10, 0, 3⟩],
    categories :=
      [⟨1, some 0, "Eating out"⟩, ⟨7, some 1, "Bars"⟩],
    promotions :=
      [⟨1, 1, 1, "A", "promo a"⟩, ⟨2, 2, 1, "B", "promo b"⟩,
       ⟨3, 1, 7, "C", "promo c"⟩],
    banners :=
      [⟨"b-promo-1", none, some 1, none, [1, 2]⟩,
       ⟨"b-cat-1", none, none, some 1, [3]⟩] }

/-! ### Claims -/

/-- C1: `ListPromotionsByPartner(0)` disables the partner filter and
returns the banner-joined rows of every promotion; for `p ≠ 0` it
returns exactly the rows of the promotions whose `partner_id` equals
`p`. -/
theorem c1_partner_sentinel (st : Store) (p : Int) :
    promotionByPartnerQuery st 0 =
      (promotionBannerJoin st).map (fun x => mkPromotion x.1 x.2) ∧
    (p ≠ 0 →
      promotionByPartnerQuery st p =
        ((promotionBannerJoin st).filter
            (fun x => x.1.partnerId = p)).map
          (fun x => mkPromotion x.1 x.2)) := by
  refine ⟨promotionByPartnerQuery_zero st, fun hp => ?_⟩
  unfold promotionByPartnerQuery
  congr 1
  apply List.filter_congr
  intro x _
  simp [hp]

theorem c1_partner_sentinel_witness :
    (7 : Int) ≠ 0 ∧
    (promotionByPartnerQuery wStore 0 =
        (promotionBannerJoin wStore).map (fun x => mkPromotion x.1 x.2) ∧
      promotionByPartnerQuery wStore 7 =
        ((promotionBannerJoin wStore).filter
            (fun x => x.1.partnerId = 7)).map
          (fun x => mkPromotion x.1 x.2)) :=
  ⟨by decide,
   ⟨(c1_partner_sentinel wStore 7).1,
    (c1_partner_sentinel wStore 7).2 (by decide)⟩⟩

/-- C4: both promotion getters bind the `*gorm.DB` returned by `Scan`
(never nil) instead of its `.Error` field, so they return a non-nil
error on every call — the underlying query outcome included a success —
and every `/promtions` request is answered with HTTP 500 and never with
a promotion list. -/
theorem c4_promotions_always_error
    (dbResp : Except String (List Promotion)) (p : Int) (long lat : Rat)
    (st : Store) (dbFail : Option String) (latitude longitude : Rat)
    (partnerRaw : String) :
    (∃ e, GetPromotionsByPartner dbResp p = Except.error e) ∧
    (∃ e, GetPromotionsByGeo dbResp long lat = Except.error e) ∧
    (runPromotionsRequest st dbFail latitude longitude partnerRaw).status = 500 ∧
    (∀ rows, (runPromotionsRequest st dbFail latitude longitude
        partnerRaw).body ≠ Body.jsonPromotions rows) := by
  refine ⟨⟨_, rfl⟩, ⟨_, rfl⟩, ?_, ?_⟩ <;>
    · unfold runPromotionsRequest
      cases getPromotionsDispatch latitude longitude partnerRaw <;>
        simp [GetPromotionsByGeo, GetPromotionsByPartner, gormScanHandle]

/-- C9: the Schema Initializer is idempotent — a second run changes
nothing on any store state — and two runs on the empty store leave the
schema of the single run and each of the twelve seeded category rows
exactly once. -/
theorem c9_init_idempotent :
    (∀ s : DBState, runInit (runInit s) = runInit s) ∧
    runInit (runInit emptyDB) = runInit emptyDB ∧
    (runInit emptyDB).categoryRows = seedCategories ∧
    (((List.range 12).map (fun i => (Int.ofNat i))).all
        (fun i => ((runInit (runInit emptyDB)).categoryRows.filter
          (fun r => r.id = i)).length = 1)) = true :=
  ⟨runInit_idem, runInit_idem emptyDB, by decide, by decide⟩

/-- C5: the geo-mode query returns the same multiset of rows as the
partner-mode query with the sentinel `0` — only the order differs.  The
hypothesis is the primary-key constraint of `partner`: the partner
left-join factor is then a singleton per promotion and the projection
discards it. -/
theorem c5_geo_partner_perm (st : Store) (x y : Rat)
    (h : (st.partners.map (fun q => q.id)).Nodup) :
    (promotionByGeoQuery st x y).Perm (promotionByPartnerQuery st 0) := by
  have h1 : (geoSortedRows st x y).Perm (geoKeyedRows st x y) :=
    List.perm_insertionSort geoDesc _
  have h2 := h1.map Prod.fst
  have h3 : (geoKeyedRows st x y).map Prod.fst =
      (promotionGeoJoin st).map (fun z => mkPromotion z.1 z.2.2) := by
    unfold geoKeyedRows
    rw [List.map_map]
    rfl
  show ((geoSortedRows st x y).map Prod.fst).Perm _
  rw [promotionByPartnerQuery_zero, ← geoJoin_proj_eq_bannerJoin st h, ← h3]
  exact h2

theorem c5_geo_partner_perm_witness :
    (wStore.partners.map (fun q => q.id)).Nodup ∧
    (promotionByGeoQuery wStore 3 4).Perm (promotionByPartnerQuery wStore 0) :=
  ⟨by decide, c5_geo_partner_perm wStore 3 4 (by decide)⟩

/-- The two-promotion store of the C3 counterexample: partner 2 is
strictly nearer to the client point than partner 1. -/
def cex3Store : Store :=
  { partners := [⟨1, "P1", "", 0, 0, 1⟩, ⟨2, "P2", "", 10, 0, 1⟩],
    categories := [],
    promotions := [⟨1, 1, 1, "A", "a"⟩, ⟨2, 2, 1, "B", "b"⟩],
    banners := [] }

/-- C3 counterexample: at client coordinates `lat = 40`, `long = -73`
(both non-zero), the handler dispatches the parsed latitude `40` as the
first positional argument of the geo call (the parameter named `long`),
and the query lists the promotion of the strictly nearer partner
(id 2, squared distance 6229) after that of the farther partner
(id 1, squared distance 6929): the order is descending in distance, not
ascending. -/
theorem c3_counterexample :
    getPromotionsDispatch 40 (-73) "7" = PromotionsCall.byGeo 40 (-73) ∧
    promotionByGeoQuery cex3Store 40 (-73) =
      [⟨1, "A", "a", ""⟩, ⟨2, "B", "b", ""⟩] ∧
    geoKey (some ⟨2, "P2", "", 10, 0, 1⟩) 40 (-73) <
      geoKey (some ⟨1, "P1", "", 0, 0, 1⟩) 40 (-73) := by
  have hlt : ((10 - 40) * (10 - 40) + (0 - (-73)) * (0 - (-73)) : Rat) <
      ((0 - 40) * (0 - 40) + (0 - (-73)) * (0 - (-73)) : Rat) := by norm_num
  refine ⟨by decide, ?_, ?_⟩
  · have h1 : geoKeyedRows cex3Store 40 (-73) =
        [(⟨1, "A", "a", ""⟩, geoKey (some ⟨1, "P1", "", 0, 0, 1⟩) 40 (-73)),
         (⟨2, "B", "b", ""⟩, geoKey (some ⟨2, "P2", "", 10, 0, 1⟩) 40 (-73))] :=
      rfl
    have hcmp : geoDesc
        (⟨1, "A", "a", ""⟩, geoKey (some ⟨1, "P1", "", 0, 0, 1⟩) 40 (-73))
        (⟨2, "B", "b", ""⟩, geoKey (some ⟨2, "P2", "", 10, 0, 1⟩) 40 (-73)) := by
      show geoKey (some ⟨2, "P2", "", 10, 0, 1⟩) 40 (-73) ≤
        geoKey (some ⟨1, "P1", "", 0, 0, 1⟩) 40 (-73)
      show (((10 - 40) * (10 - 40) + (0 - (-73)) * (0 - (-73)) : Rat) : WithTop Rat) ≤
        (((0 - 40) * (0 - 40) + (0 - (-73)) * (0 - (-73)) : Rat) : WithTop Rat)
      exact_mod_cast le_of_lt hlt
    unfold promotionByGeoQuery geoSortedRows
    rw [h1]
    simp only [List.insertionSort, List.orderedInsert]
    rw [if_pos hcmp]
    simp
  · show (((10 - 40) * (10 - 40) + (0 - (-73)) * (0 - (-73)) : Rat) : WithTop Rat) <
      (((0 - 40) * (0 - 40) + (0 - (-73)) * (0 - (-73)) : Rat) : WithTop Rat)
    exact_mod_cast hlt

/-- C3 amended: with both parsed coordinates non-zero the handler calls
the geo query with the parsed latitude in the first (longitude-named)
slot and the parsed longitude in the second; the result is the keyed
join sorted by *descending* key (farthest first), where the key of a row
with partner `q` is the squared Euclidean distance between the stored
point `(q.loc0, q.loc1)` — read by the repository as (latitude,
longitude) — and the client point `(lat, long)`: the call-site swap
cancels against the storage convention, so the key is still the
distance to the client-supplied point, but the direction is
descending. -/
theorem c3_amended_geo_order (st : Store) (latitude longitude : Rat)
    (partnerRaw : String) (hlat : latitude ≠ 0) (hlong : longitude ≠ 0) :
    getPromotionsDispatch latitude longitude partnerRaw =
      PromotionsCall.byGeo latitude longitude ∧
    List.Sorted geoDesc (geoSortedRows st latitude longitude) ∧
    promotionByGeoQuery st latitude longitude =
      (geoSortedRows st latitude longitude).map Prod.fst ∧
    (∀ q : PartnerRec, geoKey (some q) latitude longitude =
      (((q.loc0 - latitude) * (q.loc0 - latitude) +
        (q.loc1 - longitude) * (q.loc1 - longitude) : Rat) : WithTop Rat)) := by
  refine ⟨?_, List.sorted_insertionSort geoDesc _, rfl, fun q => rfl⟩
  simp [getPromotionsDispatch, hlat, hlong]

theorem c3_amended_geo_order_witness :
    (40 : Rat) ≠ 0 ∧ (-73 : Rat) ≠ 0 ∧
    (getPromotionsDispatch 40 (-73) "7" = PromotionsCall.byGeo 40 (-73) ∧
      List.Sorted geoDesc (geoSortedRows wStore 40 (-73)) ∧
      promotionByGeoQuery wStore 40 (-73) =
        (geoSortedRows wStore 40 (-73)).map Prod.fst ∧
      (∀ q : PartnerRec, geoKey (some q) 40 (-73) =
        (((q.loc0 - 40) * (q.loc0 - 40) +
          (q.loc1 - (-73)) * (q.loc1 - (-73)) : Rat) : WithTop Rat))) :=
  ⟨by norm_num, by norm_num,
   c3_amended_geo_order wStore 40 (-73) "7" (by norm_num) (by norm_num)⟩

/-- C2 counterexample: `partner=99999999999999999999` is unparsable
(`Atoi` returns a non-nil error), yet the dispatched partner id is the
range-clamped `MaxInt64`, not `0`. -/
theorem c2_counterexample :
    (goAtoi "99999999999999999999").2 = false ∧
    getPromotionsDispatch 0 40 "99999999999999999999" =
      PromotionsCall.byPartner 9223372036854775807 ∧
    (9223372036854775807 : Int) ≠ 0 := by
  decide

/-- C2 amended: the handler calls the geo query exactly when both parsed
coordinates are non-zero (a supplied partner parameter notwithstanding),
and otherwise the partner query with the `Atoi` value of the raw partner
parameter — `0` when the parameter is absent or syntactically malformed
(an out-of-range numeral clamps instead). -/
theorem c2_amended_dispatch (latitude longitude : Rat) (partnerRaw : String) :
    ((getPromotionsDispatch latitude longitude partnerRaw).isByGeo = true ↔
      (latitude ≠ 0 ∧ longitude ≠ 0)) ∧
    (latitude = 0 ∨ longitude = 0 →
      getPromotionsDispatch latitude longitude partnerRaw =
        PromotionsCall.byPartner (goAtoi partnerRaw).1) ∧
    (goAtoi "").1 = 0 ∧
    (∀ s, isValidIntSyntax s.data = false → (goAtoi s).1 = 0) := by
  refine ⟨?_, ?_, rfl, fun s hs => by rw [goAtoi_invalid s hs]⟩
  · by_cases h : latitude ≠ 0 ∧ longitude ≠ 0 <;>
      simp [getPromotionsDispatch, h, PromotionsCall.isByGeo]
  · intro h
    have hn : ¬(latitude ≠ 0 ∧ longitude ≠ 0) := by tauto
    simp [getPromotionsDispatch, hn]

theorem c2_amended_dispatch_witness :
    getPromotionsDispatch 0 5 "abc" = PromotionsCall.byPartner 0 ∧
    (getPromotionsDispatch 3 4 "abc").isByGeo = true :=
  ⟨by
    have h := (c2_amended_dispatch 0 5 "abc").2.1 (Or.inl rfl)
    rw [h]; decide,
   ((c2_amended_dispatch 3 4 "abc").1).mpr ⟨by norm_num, by norm_num⟩⟩

/-- C6: with `url` a primary key, a `/image` lookup with no matching
banner row yields a repository error (not an empty byte sequence), which
the handler turns into a 500 with a non-empty error body and no
`image/jpeg` content type; the lookup succeeds with the raw image bytes
exactly when the URL of one row matches. -/
theorem c6_banner_image (st : Store) (u : String)
    (h : (st.banners.map (fun b => b.url)).Nodup) :
    ((st.banners.filter (fun b => b.url = u)) = [] →
      GetBannerImageByURL none (Except.ok (bannerImagesQuery st u)) =
        Except.error "GetBannerURLs: sql: no rows in result set" ∧
      runImageRequest st none none u =
        { status := 500, contentType := none,
          body := Body.text "GetBannerURLs: sql: no rows in result set" } ∧
      "GetBannerURLs: sql: no rows in result set" ≠ "") ∧
    ((∃ img, GetBannerImageByURL none (Except.ok (bannerImagesQuery st u)) =
        Except.ok img) ↔
      (st.banners.filter (fun b => b.url = u)).length = 1) ∧
    (∀ b, st.banners.filter (fun b2 => b2.url = u) = [b] →
      runImageRequest st none none u =
        { status := 200, contentType := some "image/jpeg",
          body := Body.imageBytes b.image }) := by
  refine ⟨?_, ⟨?_, ?_⟩, ?_⟩
  · intro he
    have hq : bannerImagesQuery st u = [] := by
      rw [bannerImagesQuery, he]; rfl
    exact ⟨by rw [hq]; rfl,
      by simp [runImageRequest, driverOutcome, hq, GetBannerImageByURL,
        queryRowScan],
      by decide⟩
  · rintro ⟨img, himg⟩
    rcases hl : st.banners.filter (fun b => b.url = u) with _ | ⟨b, tl⟩
    · rw [show GetBannerImageByURL none (Except.ok (bannerImagesQuery st u)) =
          Except.error "GetBannerURLs: sql: no rows in result set" from
        by rw [bannerImagesQuery, hl]; rfl] at himg
      cases himg
    · have hle : (st.banners.filter (fun b => b.url = u)).length ≤ 1 := by
        simpa using
          length_filter_le_one_of_nodup_map (fun b => b.url) u st.banners h
      rw [hl] at hle
      simp only [List.length_cons] at hle
      have : tl.length = 0 := by omega
      rw [hl, List.length_cons, this]
  · intro hlen
    obtain ⟨b, hb⟩ := List.length_eq_one.mp hlen
    exact ⟨b.image,
      by simp [bannerImagesQuery, hb, GetBannerImageByURL, queryRowScan]⟩
  · intro b hb
    simp [runImageRequest, driverOutcome, bannerImagesQuery, hb,
      GetBannerImageByURL, queryRowScan]

theorem c6_banner_image_witness :
    runImageRequest wStore none none "b-promo-1" =
      { status := 200, contentType := some "image/jpeg",
        body := Body.imageBytes [1, 2] } :=
  (c6_banner_image wStore "b-promo-1" (by decide)).2.2
    ⟨"b-promo-1", none, some 1, none, [1, 2]⟩ (by decide)

/-- C7 counterexample: `parent=99999999999999999999` fails to parse
(`Atoi` reports a range error), yet the handler does not behave like
`parent=0`: the parent id degrades to the clamped `MaxInt64`, under
which the stored `Eating out` row (parent 0) is no longer returned. -/
theorem c7_counterexample :
    (goAtoi "99999999999999999999").2 = false ∧
    runCategoriesRequest wStore none "99999999999999999999" ≠
      runCategoriesRequest wStore none "0" := by
  decide

/-- C7 amended: a `parent` parameter that is missing or syntactically
malformed (not an optional sign followed by digits) degrades to `0`, and
the request then behaves identically to `parent=0` — parameter coercion
never rejects a request; a syntactically valid but out-of-range numeral
instead degrades to the clamped 64-bit value. -/
theorem c7_amended_coercion (st : Store) (dbFail : Option String)
    (s : String) (h : isValidIntSyntax s.data = false) :
    runCategoriesRequest st dbFail s = runCategoriesRequest st dbFail "0" := by
  have h1 : (goAtoi s).1 = 0 := by rw [goAtoi_invalid s h]
  have h2 : (goAtoi "0").1 = 0 := by decide
  simp only [runCategoriesRequest, h1, h2]

theorem c7_amended_coercion_witness :
    isValidIntSyntax ("abc" : String).data = false ∧
    runCategoriesRequest wStore none "abc" =
      runCategoriesRequest wStore none "0" :=
  ⟨by decide, c7_amended_coercion wStore none "abc" (by decide)⟩

/-- C10 counterexample: `GetBannerImageByURL` labels a query failure
with the stale operation name `GetBannerURLs`, not its own name; and a
failure of the connection-handle acquisition is passed through without
any operation label at all. -/
theorem c10_counterexample :
    GetBannerImageByURL none (Except.error "connection reset") =
      Except.error "GetBannerURLs: connection reset" ∧
    "GetBannerURLs: connection reset" ≠
      "GetBannerImageByURL: connection reset" ∧
    GetBannerImageByURL (some "driver: bad connection") (Except.ok []) =
      Except.error "driver: bad connection" :=
  ⟨rfl, by decide, rfl⟩

/-- C10 amended: every query failure surfaces as a repository error that
wraps the underlying cause behind an operation label, and the error
value replaces the result collection; but the label on
`GetBannerImageByURL` is the stale `GetBannerURLs`, and its
connection-acquisition failure is returned unwrapped, with no label. -/
theorem c10_amended_wrapping (e : String)
    (dbResp : Except String (List (List Nat))) :
    GetCategories (Except.error e) =
      Except.error ("GetCategories: " ++ e) ∧
    GetPartners (Except.error e) = Except.error ("GetPartners: " ++ e) ∧
    GetBannerImageByURL none (Except.error e) =
      Except.error ("GetBannerURLs: " ++ e) ∧
    GetBannerImageByURL (some e) dbResp = Except.error e :=
  ⟨rfl, rfl, rfl, rfl⟩

/-- C8: `ListCategories(parentId)` returns every category whose parent
equals `parentId` — a category with an associated banner appears with
the URL of that banner, one without appears with the empty URL rather than
being omitted (left-outer join) — and every returned row stems from such
a category. -/
theorem c8_categories_left_join (st : Store) (parentId : Int) :
    (∀ c ∈ st.categories, c.parentId = some parentId →
      ((st.banners.filter (fun b => b.categoryId = some c.id)) = [] →
        ({ Id := c.id, Name := c.name, URL := "" } : Category) ∈
          categoriesQuery st parentId) ∧
      (∀ b ∈ st.banners, b.categoryId = some c.id →
        ({ Id := c.id, Name := c.name, URL := b.url } : Category) ∈
          categoriesQuery st parentId)) ∧
    (∀ row ∈ categoriesQuery st parentId, ∃ c, c ∈ st.categories ∧
      c.parentId = some parentId ∧ row.Id = c.id ∧ row.Name = c.name) := by
  constructor
  · intro c hc hp
    constructor
    · intro hb
      apply List.mem_map.mpr
      refine ⟨(c, none), List.mem_filter.mpr
        ⟨List.mem_flatMap.mpr ⟨c, hc, ?_⟩, by simp [hp]⟩, rfl⟩
      simp [categoryBannerMatches, hb]
    · intro b hbmem hbc
      apply List.mem_map.mpr
      refine ⟨(c, some b), List.mem_filter.mpr
        ⟨List.mem_flatMap.mpr ⟨c, hc, ?_⟩, by simp [hp]⟩, rfl⟩
      have hbf : b ∈ st.banners.filter (fun b2 => b2.categoryId = some c.id) :=
        List.mem_filter.mpr ⟨hbmem, by simp [hbc]⟩
      have hne : (st.banners.filter
          (fun b2 => b2.categoryId = some c.id)).isEmpty = false := by
        rcases hfe :
            (st.banners.filter (fun b2 => b2.categoryId = some c.id)).isEmpty
          with _ | _
        · exact hfe
        · rw [List.isEmpty_iff.mp hfe] at hbf; cases hbf
      show (c, some b) ∈ categoryBannerMatches st.banners c
      rw [show categoryBannerMatches st.banners c =
          (st.banners.filter (fun b2 => b2.categoryId = some c.id)).map
            (fun b2 => (c, some b2)) from by
        simp [categoryBannerMatches, hne]]
      exact List.mem_map.mpr ⟨b, hbf, rfl⟩
  · intro row hrow
    obtain ⟨cb, hcb, hproj⟩ := List.mem_map.mp hrow
    obtain ⟨hmem, hpred⟩ := List.mem_filter.mp hcb
    obtain ⟨c, hc, hcb2⟩ := List.mem_flatMap.mp hmem
    have hfst : cb.1 = c := by
      by_cases he : (st.banners.filter
          (fun b => b.categoryId = some c.id)).isEmpty = true
      · simp [categoryBannerMatches, he] at hcb2
        rw [hcb2]
      · simp [categoryBannerMatches, he] at hcb2
        obtain ⟨b, hb1, hb2⟩ := hcb2
        rw [← hb2]
    refine ⟨c, hc, ?_, ?_, ?_⟩
    · rw [← hfst]
      exact of_decide_eq_true hpred
    · rw [← hproj, ← hfst]
    · rw [← hproj, ← hfst]

theorem c8_categories_left_join_witness :
    ({ Id := 1, Name := "Eating out", URL := "b-cat-1" } : Category) ∈
      categoriesQuery wStore 0 ∧
    ({ Id := 7, Name := "Bars", URL := "" } : Category) ∈
      categoriesQuery wStore 1 :=
  ⟨((c8_categories_left_join wStore 0).1 ⟨1, some 0, "Eating out"⟩
      (by decide) rfl).2 ⟨"b-cat-1", none, none, some 1, [3]⟩
      (by decide) rfl,
   ((c8_categories_left_join wStore 1).1 ⟨7, some 1, "Bars"⟩
      (by decide) rfl).1 (by decide)⟩

theorem c4_promotions_always_error_witness :
    (∃ e, GetPromotionsByPartner (Except.ok []) 0 = Except.error e) ∧
    (∃ e, GetPromotionsByGeo (Except.ok []) 1 2 = Except.error e) ∧
    (runPromotionsRequest wStore none 3 4 "").status = 500 ∧
    (∀ rows, (runPromotionsRequest wStore none 3 4 "").body ≠
      Body.jsonPromotions rows) :=
  c4_promotions_always_error (Except.ok []) 0 1 2 wStore none 3 4 ""
